import Mathlib

/-!
Shallow embedding of the daytona-fetchai job-search agent.

The repository has two source files:
* daytona.py — the JobSearcher class (query parameterization, the job-listing
  HTTP client, listing formatting), the Flask preview-site generator, and the
  sandbox provisioning workflow run_job_search_sandbox.
* agent.py — the conversational front door (handle_message).

Pure string functions are translated directly.  Effectful code
(run_job_search_sandbox, handle_message) is modelled as a function of an
explicit environment describing the outcomes of the external calls, returning
the list of performed external actions (an event trace) together with the
result value or the propagated exception.
-/

namespace DaytonaFetchai

/-- Model of a Python value stored in a listing mapping: either None or a
string.  The upstream API returns JSON, so fields may be null or strings. -/
inductive PyVal where
  | vnone : PyVal
  | vstr : String → PyVal
deriving DecidableEq, Repr

/-- Python truthiness for the values above: None and the empty string are
falsy, every other string is truthy. -/
def truthy : PyVal → Bool
  | .vnone => false
  | .vstr s => !s.isEmpty

/-- Rendering a PyVal the way a Python f-string would (str(None) = "None"). -/
def pyStrOf : PyVal → String
  | .vnone => "None"
  | .vstr s => s

/-- Lowercase a character list, modelling Python str.lower on ASCII text. -/
def lowerList (l : List Char) : List Char := l.map Char.toLower

/-- Substring test on character lists, modelling the Python `in` operator
for strings: does pat occur contiguously inside hay? -/
def containsSub (hay pat : List Char) : Bool :=
  match hay with
  | [] => pat.isEmpty
  | c :: t => pat.isPrefixOf (c :: t) || containsSub t pat

/-- Characters stripped by Python str.strip() (ASCII whitespace). -/
def isPyWs (c : Char) : Bool :=
  c = ' ' || c = '\t' || c = '\n' || c = '\r' || c = '\x0b' || c = '\x0c'

/-- Model of Python str.strip(): drop leading and trailing whitespace. -/
def pyStrip (s : String) : String :=
  (((s.toList.dropWhile isPyWs).reverse.dropWhile isPyWs).reverse).asString

/-- Model of Python s[:n] string slicing (by code points). -/
def pyTake (s : String) (n : Nat) : String := (s.toList.take n).asString

/-- Model of Python url.rstrip with a slash argument: drop trailing slashes. -/
def pyRstripSlash (s : String) : String :=
  ((s.toList.reverse.dropWhile (fun c => c = '/')).reverse).asString

/-- The fixed ordered location token list of JobSearcher._extract_location
(daytona.py lines 47-48). -/
def locationsList : List String :=
  ["new york", "san francisco", "chicago", "los angeles", "seattle",
   "boston", "austin", "denver", "miami", "remote", "anywhere", "us", "uk"]

/-- Normalization applied to a matched location token:
loc.replace(' ', '_').upper(). -/
def normalizeLoc (s : String) : String :=
  ((s.toList.map (fun c => if c = ' ' then '_' else c)).map Char.toUpper).asString

/-- First token of the list occurring in the (already lowercased) text,
modelling the for loop of _extract_location. -/
def findLoc (tl : List Char) : List String → Option String
  | [] => none
  | loc :: rest => if containsSub tl loc.toList then some loc else findLoc tl rest

/-- JobSearcher._extract_location (daytona.py lines 45-53). -/
def extractLocation (text : String) : String :=
  match findLoc (lowerList text.toList) locationsList with
  | some loc => normalizeLoc loc
  | none => "US"

/-- JobSearcher._extract_employment_type (daytona.py lines 55-65). -/
def extractEmploymentType (text : String) : String :=
  let tl := lowerList text.toList
  if containsSub tl "internship".toList then "INTERNSHIP"
  else if containsSub tl "part.time".toList || containsSub tl "part-time".toList then
    "PART_TIME"
  else if containsSub tl "contract".toList || containsSub tl "contractor".toList then
    "CONTRACTOR"
  else "FULLTIME"

/-- A raw listing record: the mapping keys format_job_listing reads, each
either absent from the mapping (none) or present with a PyVal value
(which may itself be Python None). -/
structure Listing where
  job_title : Option PyVal := none
  employer_name : Option PyVal := none
  job_location : Option PyVal := none
  job_employment_type : Option PyVal := none
  job_apply_link : Option PyVal := none
  employer_website : Option PyVal := none
  employer_url : Option PyVal := none
  job_description : Option PyVal := none
deriving DecidableEq, Repr

/-- The empty listing mapping. -/
def emptyListing : Listing := {}

/-- Python dict.get(key, default): the default applies only when the key is
absent; a key present with value None yields None. -/
def pyGet (field : Option PyVal) (dflt : String) : PyVal :=
  match field with
  | none => .vstr dflt
  | some v => v

/-- Python dict.get(key) with no default: absent keys yield None. -/
def pyGetN (field : Option PyVal) : PyVal := field.getD .vnone

/-- Python `a or b`: a if truthy, else b. -/
def pyOr (a b : PyVal) : PyVal := if truthy a then a else b

/-- String content of a PyVal (only consulted on truthy values, where the
value is a nonempty string). -/
def strOf : PyVal → String
  | .vnone => ""
  | .vstr s => s

/-- JobSearcher.format_job_listing (daytona.py lines 113-123), as the
association list of the returned dict literal. -/
def formatJobListing (job : Listing) : List (String × PyVal) :=
  [("title", pyGet job.job_title "N/A"),
   ("company", pyGet job.employer_name "N/A"),
   ("location", pyGet job.job_location "N/A"),
   ("employment_type", pyGet job.job_employment_type "N/A"),
   ("apply_link", pyGet job.job_apply_link "#"),
   ("website", pyOr (pyGetN job.employer_website) (pyOr (pyGetN job.employer_url) (.vstr ""))),
   ("description",
     if truthy (pyGetN job.job_description) then
       .vstr (pyTake (strOf (pyGet job.job_description "")) 200 ++ "...")
     else .vstr "No description")]

/-- Outcome of parsing the HTTP response body in search_jobs: response.json()
either raises or yields a JSON object whose data field may be absent. -/
inductive BodyOutcome where
  | parseError : BodyOutcome
  | json : Option (List Listing) → BodyOutcome
deriving DecidableEq

/-- Outcome of the requests.get call in search_jobs: either the transport
raises, or a response with a status code and a body arrives. -/
inductive HttpOutcome where
  | transportError : HttpOutcome
  | response : Nat → BodyOutcome → HttpOutcome
deriving DecidableEq

/-- JobSearcher.search_jobs (daytona.py lines 95-111), as a function of the
HTTP outcome: on 200 return the data field (empty if absent), on any non-200
status or transport or parse failure return the empty list. -/
def searchJobs (resp : HttpOutcome) : List Listing :=
  match resp with
  | .transportError => []
  | .response status body =>
    if status = 200 then
      match body with
      | .parseError => []
      | .json d => d.getD []
    else []

/-- External actions performed by run_job_search_sandbox, in order. -/
inductive Event where
  | createSandbox : Event
  | searchCall : Event
  | uploadFile : Event
  | createSession : Event
  | installCmd : Nat → Event
  | diagLs : Event
  | diagPython : Event
  | launch : Event
  | previewLink : Nat → Event
  | pollReq : String → Nat → Event
  | sleep : Nat → Event
  | diagPs : Event
  | diagTail : Event
  | deleteSandbox : Event
deriving DecidableEq, Repr

/-- Outcome of one requests.get in the health-poll loop: either the transport
raises (timeout, connection error) or a response with a status code arrives. -/
inductive PollOutcome where
  | status : Nat → PollOutcome
  | transportError : PollOutcome
deriving DecidableEq

/-- The poll loop breaks exactly when the attempt produced HTTP 200. -/
def isLive : PollOutcome → Bool
  | .status c => c = 200
  | .transportError => false

/-- The liveness URL polled by the loop: url.rstrip with a slash plus the
callback path (daytona.py line 324). -/
def healthUrl (url : String) : String := pyRstripSlash url ++ "/callback"

/-- One iteration step of the health-poll loop (daytona.py lines 326-334):
attempt i issues a GET to the target with a 2-second timeout; on HTTP 200 the
loop breaks, otherwise (non-200 status or a swallowed transport error) it
sleeps 1 second and continues.  Returns the events and whether ready. -/
def pollAttempts (outcome : Nat → PollOutcome) (target : String) :
    Nat → Nat → List Event × Bool
  | _, 0 => ([], false)
  | i, fuel + 1 =>
    if isLive (outcome i) then ([.pollReq target 2], true)
    else
      let rest := pollAttempts outcome target (i + 1) fuel
      (.pollReq target 2 :: .sleep 1 :: rest.1, rest.2)

/-- The whole health poll: 45 attempts against the liveness URL derived from
the preview URL. -/
def healthPoll (outcome : Nat → PollOutcome) (url : String) : List Event × Bool :=
  pollAttempts outcome (healthUrl url) 0 45

/-- The fixed ordered list of dependency-install commands
(daytona.py lines 261-266). -/
def installCmds : List String :=
  ["python3 -m pip install --no-cache-dir flask",
   "python -m pip install --no-cache-dir flask",
   "pip3 install --no-cache-dir flask",
   "pip install --no-cache-dir flask"]

/-- Indices of the install commands actually executed (daytona.py lines
267-279): the loop attempts each in order and breaks after the first one whose
session execution raises no exception; a raising command is skipped and the
next is tried. -/
def installSeq (ok : Nat → Bool) : List Nat → List Nat
  | [] => []
  | i :: rest => if ok i then [i] else i :: installSeq ok rest

/-- Environment for one run of run_job_search_sandbox: the configuration and
the outcomes of every external call the workflow can make. -/
structure Env where
  /-- Value of os.getenv for the sandbox credential: none when unset. -/
  daytonaApiKey : Option String
  /-- Identity of the sandbox daytona.create() would allocate. -/
  sandboxId : Nat
  /-- Listings returned by the inner search_jobs call. -/
  searchResult : List Listing
  /-- Whether sandbox.fs.upload_file succeeds (it is not wrapped in try). -/
  uploadOk : Bool
  /-- Whether sandbox.process.create_session succeeds (not wrapped in try). -/
  createSessionOk : Bool
  /-- Whether the i-th install command executes without raising. -/
  installOk : Nat → Bool
  /-- Whether the launch execute_session_command succeeds (not wrapped). -/
  launchOk : Bool
  /-- Whether sandbox.get_preview_link(3000) succeeds (not wrapped). -/
  previewOk : Bool
  /-- URL resolved by sandbox.get_preview_link(3000). -/
  previewUrl : String
  /-- Outcome of the i-th health-poll request. -/
  pollOutcome : Nat → PollOutcome

/-- Python truthiness of `not daytona_api_key`: unset or the empty string. -/
def keyFalsy : Option String → Bool
  | none => true
  | some s => s.isEmpty

/-- Exceptions that propagate out of run_job_search_sandbox: the steps that
are not individually wrapped in try/except. -/
inductive StepError where
  | uploadError : StepError
  | sessionError : StepError
  | launchError : StepError
  | previewError : StepError
deriving DecidableEq, Repr

/-- Value returned by run_job_search_sandbox when it returns normally:
bare None when the credential is missing, the pair (None, None) on the
zero-listings path, or the sandbox together with its preview URL. -/
inductive ProvisionResult where
  | noKey : ProvisionResult
  | noJobs : ProvisionResult
  | ok : Nat → String → ProvisionResult
deriving DecidableEq, Repr

/-- The url component the caller destructures out of the result (agent.py
line 62 maps the non-tuple bare None to (None, None)). -/
def resultUrl : ProvisionResult → Option String
  | .noKey => none
  | .noJobs => none
  | .ok _ url => some url

/-- The sandbox component the caller destructures out of the result. -/
def resultSandbox : ProvisionResult → Option Nat
  | .noKey => none
  | .noJobs => none
  | .ok sb _ => some sb

/-- run_job_search_sandbox (daytona.py lines 225-371): the trace of external
actions performed, and either the propagated exception or the returned value.
Best-effort steps (install attempts, diagnostics, the port-22222 preview
link) swallow their failures; upload, session creation, launch and the
port-3000 preview link propagate theirs. -/
def runJobSearchSandbox (env : Env) : List Event × Except StepError ProvisionResult :=
  if keyFalsy env.daytonaApiKey then ([], .ok .noKey)
  else
    let ev0 : List Event := [.createSandbox, .searchCall]
    if env.searchResult.isEmpty then
      (ev0 ++ [.deleteSandbox], .ok .noJobs)
    else
      let ev1 := ev0 ++ [.uploadFile]
      if !env.uploadOk then (ev1, .error .uploadError)
      else
        let ev2 := ev1 ++ [.createSession]
        if !env.createSessionOk then (ev2, .error .sessionError)
        else
          let ev3 := ev2 ++ (installSeq env.installOk [0, 1, 2, 3]).map .installCmd
          let ev4 := ev3 ++ [.diagLs, .diagPython, .launch]
          if !env.launchOk then (ev4, .error .launchError)
          else
            let ev5 := ev4 ++ [.previewLink 3000]
            if !env.previewOk then (ev5, .error .previewError)
            else
              let ev6 := ev5 ++ [.previewLink 22222]
              let poll := healthPoll env.pollOutcome env.previewUrl
              let ev7 := ev6 ++ poll.1
              let ev8 := if poll.2 then ev7 else ev7 ++ [.diagPs, .diagTail]
              (ev8, .ok (.ok env.sandboxId env.previewUrl))

/-- One content part of an inbound chat message: only text parts are read. -/
inductive ContentPart where
  | textPart : String → ContentPart
  | otherPart : ContentPart
deriving DecidableEq

/-- Concatenation of the text of all text-bearing parts
(agent.py lines 34-37). -/
def extractText : List ContentPart → String
  | [] => ""
  | .textPart s :: rest => s ++ extractText rest
  | .otherPart :: rest => extractText rest

/-- One line of the textual digest of a formatted listing
(agent.py lines 69-71). -/
def previewLine (i : Nat) (j : List (String × PyVal)) : String :=
  toString i ++ ". " ++ pyStrOf ((j.lookup "title").getD (.vstr "")) ++ " — "
    ++ pyStrOf ((j.lookup "company").getD (.vstr "")) ++ " — "
    ++ pyStrOf ((j.lookup "location").getD (.vstr "")) ++ " ("
    ++ pyStrOf ((j.lookup "employment_type").getD (.vstr "")) ++ ")\nApply: "
    ++ pyStrOf ((j.lookup "apply_link").getD (.vstr ""))

/-- The digest of the top five listings, or the no-jobs text
(agent.py lines 64-72). -/
def jobsPreview (jobs : List Listing) : String :=
  let lines := (jobs.take 5).enum.map
    (fun p => previewLine (p.1 + 1) (formatJobListing p.2))
  if lines.isEmpty then "No jobs found."
  else String.intercalate "\n\n" lines

/-- The preview-URL line of the reply (agent.py line 74): the URL when it is
a truthy string, otherwise the unavailable text. -/
def urlPart : Option String → String
  | none => "Preview URL unavailable."
  | some u => if u.isEmpty then "Preview URL unavailable." else "Preview URL: " ++ u

/-- The composed reply of the dispatch branch (agent.py line 75). -/
def composeReply (url : Option String) (jobs : List Listing) : String :=
  urlPart url ++ "\n\nTop results:\n" ++ jobsPreview jobs

/-- Reply sent by the front door after the acknowledgement. -/
inductive Reply where
  | usageHint : Reply
  | errorReply : StepError → Reply
  | composed : String → Reply
deriving DecidableEq

/-- Observable outcome of one handle_message invocation: the reply and
whether the two downstream workflows were dispatched. -/
structure HandleOutcome where
  reply : Reply
  invokedProvisioner : Bool
  invokedListingClient : Bool
deriving DecidableEq

/-- handle_message (agent.py lines 27-86): acknowledge, extract and trim the
text, reject queries shorter than 3 characters with the usage hint, otherwise
run the provisioner and the listing client concurrently and compose the
reply; a propagated exception becomes an error reply. -/
def handleMessage (parts : List ContentPart) (env : Env) (httpResp : HttpOutcome) :
    HandleOutcome :=
  let query := pyStrip (extractText parts)
  if query.isEmpty || query.length < 3 then
    { reply := .usageHint, invokedProvisioner := false, invokedListingClient := false }
  else
    match (runJobSearchSandbox env).2 with
    | .error e =>
      { reply := .errorReply e, invokedProvisioner := true, invokedListingClient := true }
    | .ok r =>
      { reply := .composed (composeReply (resultUrl r) (searchJobs httpResp)),
        invokedProvisioner := true, invokedListingClient := true }

/-- A concrete environment whose search returns no listings; every platform
call succeeds and the liveness endpoint never answers. -/
def envNoJobs : Env :=
  { daytonaApiKey := some "key", sandboxId := 7, searchResult := [],
    uploadOk := true, createSessionOk := true, installOk := fun _ => true,
    launchOk := true, previewOk := true, previewUrl := "https://p.example/",
    pollOutcome := fun _ => .transportError }

/-- A concrete environment whose search returns one listing; every platform
call succeeds, every install command raises, and the liveness endpoint never
answers 200. -/
def envGood : Env :=
  { daytonaApiKey := some "key", sandboxId := 7, searchResult := [emptyListing],
    uploadOk := true, createSessionOk := true, installOk := fun _ => false,
    launchOk := true, previewOk := true, previewUrl := "https://p.example/",
    pollOutcome := fun _ => .transportError }

/-- An environment with no sandbox credential configured. -/
def envNoApiKey : Env :=
  { daytonaApiKey := none, sandboxId := 7, searchResult := [emptyListing],
    uploadOk := true, createSessionOk := true, installOk := fun _ => true,
    launchOk := true, previewOk := true, previewUrl := "https://p.example/",
    pollOutcome := fun _ => .transportError }

/-- A listing whose display keys are present but bound to Python None, with
falsy present values for the website and description sources. -/
def presentNoneListing : Listing :=
  { job_title := some .vnone, employer_name := some .vnone,
    job_location := some .vnone, job_employment_type := some .vnone,
    job_apply_link := some .vnone, employer_website := some (.vstr ""),
    employer_url := some .vnone, job_description := some (.vstr "") }

/-! Helper lemmas shared by the claim theorems. -/

theorem containsSub_iff (hay pat : List Char) :
    containsSub hay pat = true ↔ ∃ a b, hay = a ++ pat ++ b := by
  induction hay with
  | nil =>
    simp only [containsSub, List.isEmpty_iff]
    constructor
    · intro h
      exact ⟨[], [], by simp [h]⟩
    · rintro ⟨a, b, h⟩
      rcases List.append_eq_nil.mp (List.append_eq_nil.mp h.symm).1 with ⟨-, h2⟩
      exact h2
  | cons c t ih =>
    simp only [containsSub, Bool.or_eq_true, ih]
    constructor
    · rintro (hpre | ⟨a, b, rfl⟩)
      · obtain ⟨s, hs⟩ := List.isPrefixOf_iff_prefix.mp hpre
        exact ⟨[], s, by simp [hs]⟩
      · exact ⟨c :: a, b, rfl⟩
    · rintro ⟨a, b, h⟩
      cases a with
      | nil =>
        left
        exact List.isPrefixOf_iff_prefix.mpr ⟨b, by simpa using h.symm⟩
      | cons x xs =>
        right
        rcases List.cons_eq_cons.mp h with ⟨-, h2⟩
        exact ⟨xs, b, h2⟩

theorem lowerList_append (a b : List Char) :
    lowerList (a ++ b) = lowerList a ++ lowerList b := by
  simp [lowerList]

theorem containsSub_of_decomp (text : String) (a w b : List Char) (pat : List Char)
    (hdec : text.toList = a ++ w ++ b) (hlow : lowerList w = pat) :
    containsSub (lowerList text.toList) pat = true := by
  rw [containsSub_iff]
  exact ⟨lowerList a, lowerList b, by rw [hdec, lowerList_append, lowerList_append, hlow]⟩

theorem findLoc_none (tl : List Char) (L : List String)
    (h : ∀ l ∈ L, containsSub tl l.toList = false) : findLoc tl L = none := by
  induction L with
  | nil => rfl
  | cons x xs ih =>
    simp only [findLoc, h x (List.mem_cons_self x xs)]
    exact ih (fun l hl => h l (List.mem_cons_of_mem x hl))

theorem findLoc_append (tl : List Char) (l₁ : List String) (loc : String) (l₂ : List String)
    (hno : ∀ l ∈ l₁, containsSub tl l.toList = false)
    (hyes : containsSub tl loc.toList = true) :
    findLoc tl (l₁ ++ loc :: l₂) = some loc := by
  have hyes2 : containsSub tl loc.data = true := hyes
  induction l₁ with
  | nil => simp [findLoc, hyes2]
  | cons x xs ih =>
    simp only [List.cons_append, findLoc, hno x (List.mem_cons_self x xs)]
    exact ih (fun l hl => hno l (List.mem_cons_of_mem x hl))

theorem pollAttempts_never (o : Nat → PollOutcome) (t : String) :
    ∀ (n i : Nat), (∀ k, k < n → isLive (o (i + k)) = false) →
      pollAttempts o t i n =
        (List.flatten (List.replicate n [.pollReq t 2, .sleep 1]), false) := by
  intro n
  induction n with
  | zero => intro i _; rfl
  | succ m ih =>
    intro i h
    have h0 : isLive (o i) = false := by simpa using h 0 (Nat.succ_pos m)
    have hrest : pollAttempts o t (i + 1) m =
        (List.flatten (List.replicate m [.pollReq t 2, .sleep 1]), false) := by
      apply ih
      intro k hk
      have := h (k + 1) (by omega)
      rwa [show i + (k + 1) = i + 1 + k by omega] at this
    simp [pollAttempts, h0, hrest, List.replicate_succ]

theorem pollAttempts_firstLive (o : Nat → PollOutcome) (t : String) :
    ∀ (j n i : Nat), j < n → isLive (o (i + j)) = true →
      (∀ k, k < j → isLive (o (i + k)) = false) →
      pollAttempts o t i n =
        (List.flatten (List.replicate j [.pollReq t 2, .sleep 1]) ++ [.pollReq t 2], true) := by
  intro j
  induction j with
  | zero =>
    intro n i hn hlive _
    cases n with
    | zero => omega
    | succ m =>
      have : isLive (o i) = true := by simpa using hlive
      simp [pollAttempts, this]
  | succ j ih =>
    intro n i hn hlive hbefore
    cases n with
    | zero => omega
    | succ m =>
      have h0 : isLive (o i) = false := by simpa using hbefore 0 (Nat.succ_pos j)
      have hrest : pollAttempts o t (i + 1) m =
          (List.flatten (List.replicate j [.pollReq t 2, .sleep 1]) ++ [.pollReq t 2], true) := by
        apply ih m (i + 1) (by omega)
        · rwa [show i + 1 + j = i + (j + 1) by omega]
        · intro k hk
          have := hbefore (k + 1) (by omega)
          rwa [show i + (k + 1) = i + 1 + k by omega] at this
      simp [pollAttempts, h0, hrest, List.replicate_succ]

theorem run_trace_reaches_launch (env : Env)
    (hkey : keyFalsy env.daytonaApiKey = false)
    (hjobs : env.searchResult.isEmpty = false)
    (hu : env.uploadOk = true) (hs : env.createSessionOk = true) :
    ∃ rest, (runJobSearchSandbox env).1 =
      [.createSandbox, .searchCall, .uploadFile, .createSession]
        ++ (installSeq env.installOk [0, 1, 2, 3]).map .installCmd
        ++ [.diagLs, .diagPython, .launch] ++ rest := by
  by_cases hl : env.launchOk
  · by_cases hp : env.previewOk
    · refine ⟨[.previewLink 3000, .previewLink 22222]
        ++ (healthPoll env.pollOutcome env.previewUrl).1
        ++ (if (healthPoll env.pollOutcome env.previewUrl).2 then []
            else [.diagPs, .diagTail]), ?_⟩
      by_cases hready : (healthPoll env.pollOutcome env.previewUrl).2 <;>
        simp [runJobSearchSandbox, hkey, hjobs, hu, hs, hl, hp, hready]
    · refine ⟨[.previewLink 3000], ?_⟩
      simp [runJobSearchSandbox, hkey, hjobs, hu, hs, hl, hp]
  · refine ⟨[], ?_⟩
    simp [runJobSearchSandbox, hkey, hjobs, hu, hs, hl]

theorem run_good (env : Env)
    (hkey : keyFalsy env.daytonaApiKey = false)
    (hjobs : env.searchResult.isEmpty = false)
    (hu : env.uploadOk = true) (hs : env.createSessionOk = true)
    (hl : env.launchOk = true) (hp : env.previewOk = true) :
    runJobSearchSandbox env =
      ([.createSandbox, .searchCall, .uploadFile, .createSession]
        ++ (installSeq env.installOk [0, 1, 2, 3]).map .installCmd
        ++ [.diagLs, .diagPython, .launch, .previewLink 3000, .previewLink 22222]
        ++ (healthPoll env.pollOutcome env.previewUrl).1
        ++ (if (healthPoll env.pollOutcome env.previewUrl).2 then []
            else [.diagPs, .diagTail]),
       .ok (.ok env.sandboxId env.previewUrl)) := by
  by_cases hready : (healthPoll env.pollOutcome env.previewUrl).2 <;>
    simp [runJobSearchSandbox, hkey, hjobs, hu, hs, hl, hp, hready]

theorem pyOr_of_falsy (a b : PyVal) (h : truthy a = false) : pyOr a b = b := by
  simp [pyOr, h]

/-- C4: search_jobs never raises to its caller: for every response, on HTTP
200 it returns the data field of the JSON body (the empty sequence if that
field is absent), and on any non-200 status or any transport or parse failure
it logs and returns the empty sequence. -/
theorem claim_C4 :
    (∀ d, searchJobs (.response 200 (.json (some d))) = d) ∧
    searchJobs (.response 200 (.json none)) = [] ∧
    searchJobs (.response 200 .parseError) = [] ∧
    (∀ status body, status ≠ 200 → searchJobs (.response status body) = []) ∧
    searchJobs .transportError = [] := by
  refine ⟨fun d => rfl, rfl, rfl, ?_, rfl⟩
  intro status body h
  simp [searchJobs, h]

/-- Witness for C4 at a concrete non-200 response. -/
theorem claim_C4_witness :
    searchJobs (.response 404 (.json (some [emptyListing]))) = [] :=
  claim_C4.2.2.2.1 404 (.json (some [emptyListing])) (by decide)

/-- C5 counterexample: the claim says format_job_listing returns a record
with exactly six display fields, but the returned mapping has seven entries
(title, company, location, employment_type, apply_link, website,
description), already on the empty listing. -/
theorem claim_C5_counterexample :
    (formatJobListing emptyListing).length = 7 ∧
    ¬ (formatJobListing emptyListing).length = 6 := by
  constructor
  · rfl
  · decide

/-- C5 (amended: seven display fields, not six): format_job_listing is total,
for every listing it returns a record with exactly the seven display fields,
and for the empty mapping every field takes its documented sentinel. -/
theorem claim_C5 :
    (∀ job, (formatJobListing job).map Prod.fst =
      ["title", "company", "location", "employment_type",
       "apply_link", "website", "description"]) ∧
    formatJobListing emptyListing =
      [("title", .vstr "N/A"), ("company", .vstr "N/A"),
       ("location", .vstr "N/A"), ("employment_type", .vstr "N/A"),
       ("apply_link", .vstr "#"), ("website", .vstr ""),
       ("description", .vstr "No description")] :=
  ⟨fun _ => rfl, rfl⟩

/-- C6: any input containing the substring internship in any letter case
yields INTERNSHIP regardless of other keywords; otherwise the rules apply in
priority order (part-time or part.time, then contract or contractor, then
FULLTIME). -/
theorem claim_C6 :
    (∀ (text : String) (a w b : List Char), text.toList = a ++ w ++ b →
      lowerList w = "internship".toList →
      extractEmploymentType text = "INTERNSHIP") ∧
    (∀ text : String,
      containsSub (lowerList text.toList) "internship".toList = false →
      (containsSub (lowerList text.toList) "part.time".toList = true ∨
       containsSub (lowerList text.toList) "part-time".toList = true) →
      extractEmploymentType text = "PART_TIME") ∧
    (∀ text : String,
      containsSub (lowerList text.toList) "internship".toList = false →
      containsSub (lowerList text.toList) "part.time".toList = false →
      containsSub (lowerList text.toList) "part-time".toList = false →
      (containsSub (lowerList text.toList) "contract".toList = true ∨
       containsSub (lowerList text.toList) "contractor".toList = true) →
      extractEmploymentType text = "CONTRACTOR") ∧
    (∀ text : String,
      containsSub (lowerList text.toList) "internship".toList = false →
      containsSub (lowerList text.toList) "part.time".toList = false →
      containsSub (lowerList text.toList) "part-time".toList = false →
      containsSub (lowerList text.toList) "contract".toList = false →
      containsSub (lowerList text.toList) "contractor".toList = false →
      extractEmploymentType text = "FULLTIME") := by
  refine ⟨?_, ?_, ?_, ?_⟩
  · intro text a w b hdec hlow
    have h := containsSub_of_decomp text a w b "internship".toList hdec hlow
    simp at h
    simp [extractEmploymentType, h]
  · intro text h1 h2
    simp at h1
    rcases h2 with h2 | h2 <;> simp at h2 <;> simp [extractEmploymentType, h1, h2]
  · intro text h1 h2 h3 h4
    simp at h1 h2 h3
    rcases h4 with h4 | h4 <;> simp at h4 <;> simp [extractEmploymentType, h1, h2, h3, h4]
  · intro text h1 h2 h3 h4 h5
    simp at h1 h2 h3 h4 h5
    simp [extractEmploymentType, h1, h2, h3, h4, h5]

/-- Witness for C6: a mixed-case occurrence of internship wins even when
part-time and contract keywords are also present. -/
theorem claim_C6_witness :
    extractEmploymentType "Summer InternShip part-time contract" = "INTERNSHIP" :=
  claim_C6.1 "Summer InternShip part-time contract"
    "Summer ".toList "InternShip".toList " part-time contract".toList
    (by decide) (by decide)

/-- C7: location extraction does a case-insensitive substring match against
the fixed ordered token list, the first listed token occurring in the text
wins, the result is that token with spaces replaced by underscores and
upper-cased, and US is returned when no listed token occurs. -/
theorem claim_C7 :
    (∀ text : String,
      (∀ loc ∈ locationsList, containsSub (lowerList text.toList) loc.toList = false) →
      extractLocation text = "US") ∧
    (∀ (text : String) (l₁ : List String) (loc : String) (l₂ : List String),
      locationsList = l₁ ++ loc :: l₂ →
      (∀ l ∈ l₁, containsSub (lowerList text.toList) l.toList = false) →
      containsSub (lowerList text.toList) loc.toList = true →
      extractLocation text = normalizeLoc loc) := by
  constructor
  · intro text h
    unfold extractLocation
    rw [findLoc_none _ _ h]
  · intro text l₁ loc l₂ heq hno hyes
    unfold extractLocation
    rw [heq, findLoc_append _ _ _ _ hno hyes]

/-- Witness for C7: in a text containing both boston and austin, the earlier
listed token boston wins and is normalized. -/
theorem claim_C7_witness :
    extractLocation "Python developer in Austin and Boston" = normalizeLoc "boston" :=
  claim_C7.2 "Python developer in Austin and Boston"
    ["new york", "san francisco", "chicago", "los angeles", "seattle"]
    "boston" ["austin", "denver", "miami", "remote", "anywhere", "us", "uk"]
    rfl (by decide) (by decide)

/-- C10: the sentinel defaults of format_job_listing apply only to absent
keys: a key present but bound to None flows through as None for the five
dict.get fields with defaults, whereas website and description fall back on
any falsy value, present or absent. -/
theorem claim_C10 (job : Listing) :
    (job.job_title = some .vnone →
      (formatJobListing job).lookup "title" = some .vnone) ∧
    (job.employer_name = some .vnone →
      (formatJobListing job).lookup "company" = some .vnone) ∧
    (job.job_location = some .vnone →
      (formatJobListing job).lookup "location" = some .vnone) ∧
    (job.job_employment_type = some .vnone →
      (formatJobListing job).lookup "employment_type" = some .vnone) ∧
    (job.job_apply_link = some .vnone →
      (formatJobListing job).lookup "apply_link" = some .vnone) ∧
    (truthy (pyGetN job.employer_website) = false →
      truthy (pyGetN job.employer_url) = false →
      (formatJobListing job).lookup "website" = some (.vstr "")) ∧
    (truthy (pyGetN job.job_description) = false →
      (formatJobListing job).lookup "description" = some (.vstr "No description")) := by
  refine ⟨?_, ?_, ?_, ?_, ?_, ?_, ?_⟩
  · intro h
    have e : (formatJobListing job).lookup "title" =
        some (pyGet job.job_title "N/A") := rfl
    rw [e, h]; rfl
  · intro h
    have e : (formatJobListing job).lookup "company" =
        some (pyGet job.employer_name "N/A") := rfl
    rw [e, h]; rfl
  · intro h
    have e : (formatJobListing job).lookup "location" =
        some (pyGet job.job_location "N/A") := rfl
    rw [e, h]; rfl
  · intro h
    have e : (formatJobListing job).lookup "employment_type" =
        some (pyGet job.job_employment_type "N/A") := rfl
    rw [e, h]; rfl
  · intro h
    have e : (formatJobListing job).lookup "apply_link" =
        some (pyGet job.job_apply_link "#") := rfl
    rw [e, h]; rfl
  · intro h1 h2
    have e : (formatJobListing job).lookup "website" =
        some (pyOr (pyGetN job.employer_website)
          (pyOr (pyGetN job.employer_url) (.vstr ""))) := rfl
    rw [e, pyOr_of_falsy _ _ h1, pyOr_of_falsy _ _ h2]
  · intro h
    have e : (formatJobListing job).lookup "description" =
        some (if truthy (pyGetN job.job_description) then
          .vstr (pyTake (strOf (pyGet job.job_description "")) 200 ++ "...")
        else .vstr "No description") := rfl
    rw [e]
    simp [h]

/-- Witness for C10 at a listing with present-but-None display keys and
falsy present website and description sources. -/
theorem claim_C10_witness :
    (formatJobListing presentNoneListing).lookup "title" = some PyVal.vnone ∧
    (formatJobListing presentNoneListing).lookup "company" = some PyVal.vnone ∧
    (formatJobListing presentNoneListing).lookup "location" = some PyVal.vnone ∧
    (formatJobListing presentNoneListing).lookup "employment_type" = some PyVal.vnone ∧
    (formatJobListing presentNoneListing).lookup "apply_link" = some PyVal.vnone ∧
    (formatJobListing presentNoneListing).lookup "website" = some (PyVal.vstr "") ∧
    (formatJobListing presentNoneListing).lookup "description" =
      some (PyVal.vstr "No description") := by
  have h := claim_C10 presentNoneListing
  exact ⟨h.1 rfl, h.2.1 rfl, h.2.2.1 rfl, h.2.2.2.1 rfl, h.2.2.2.2.1 rfl,
    h.2.2.2.2.2.1 rfl rfl, h.2.2.2.2.2.2 rfl⟩

/-- C1: for every run whose job-listing search returns zero listings,
run_job_search_sandbox deletes the just-created sandbox and returns the pair
(None, None) without performing the upload, session-creation,
dependency-install, or launch steps. -/
theorem claim_C1 (env : Env)
    (hkey : keyFalsy env.daytonaApiKey = false)
    (hjobs : env.searchResult = []) :
    runJobSearchSandbox env =
      ([.createSandbox, .searchCall, .deleteSandbox], .ok .noJobs) ∧
    Event.deleteSandbox ∈ (runJobSearchSandbox env).1 ∧
    Event.uploadFile ∉ (runJobSearchSandbox env).1 ∧
    Event.createSession ∉ (runJobSearchSandbox env).1 ∧
    (∀ i, Event.installCmd i ∉ (runJobSearchSandbox env).1) ∧
    Event.launch ∉ (runJobSearchSandbox env).1 ∧
    resultSandbox ProvisionResult.noJobs = none ∧
    resultUrl ProvisionResult.noJobs = none := by
  have hrun : runJobSearchSandbox env =
      ([.createSandbox, .searchCall, .deleteSandbox], .ok .noJobs) := by
    simp [runJobSearchSandbox, hkey, hjobs]
  refine ⟨hrun, ?_, ?_, ?_, ?_, ?_, rfl, rfl⟩ <;> rw [hrun] <;> simp

/-- Witness for C1 at a concrete environment with an empty search result. -/
theorem claim_C1_witness :
    runJobSearchSandbox envNoJobs =
      ([.createSandbox, .searchCall, .deleteSandbox], .ok .noJobs) :=
  (claim_C1 envNoJobs rfl rfl).1

/-- C2: the health poll issues liveness requests to the preview URL's
liveness path with a 2-second per-attempt timeout and a 1-second sleep after
every unsuccessful attempt, treats every transport error as not yet ready,
stops at the first HTTP 200, and when no attempt returns 200 it stops after
exactly 45 attempts while the workflow still returns the resolved preview
URL. -/
theorem claim_C2 :
    (∀ (o : Nat → PollOutcome) (u : String),
      (∀ i, i < 45 → isLive (o i) = false) →
      healthPoll o u =
        (List.flatten (List.replicate 45 [.pollReq (healthUrl u) 2, .sleep 1]),
         false)) ∧
    (∀ (o : Nat → PollOutcome) (u : String) (j : Nat), j < 45 →
      isLive (o j) = true → (∀ i, i < j → isLive (o i) = false) →
      healthPoll o u =
        (List.flatten (List.replicate j [.pollReq (healthUrl u) 2, .sleep 1])
          ++ [.pollReq (healthUrl u) 2], true)) ∧
    (∀ env : Env, keyFalsy env.daytonaApiKey = false →
      env.searchResult.isEmpty = false → env.uploadOk = true →
      env.createSessionOk = true → env.launchOk = true → env.previewOk = true →
      (∀ i, i < 45 → isLive (env.pollOutcome i) = false) →
      (runJobSearchSandbox env).2 = .ok (.ok env.sandboxId env.previewUrl) ∧
      (runJobSearchSandbox env).1 =
        [.createSandbox, .searchCall, .uploadFile, .createSession]
          ++ (installSeq env.installOk [0, 1, 2, 3]).map .installCmd
          ++ [.diagLs, .diagPython, .launch, .previewLink 3000, .previewLink 22222]
          ++ List.flatten (List.replicate 45
              [.pollReq (healthUrl env.previewUrl) 2, .sleep 1])
          ++ [.diagPs, .diagTail]) := by
  have hnever : ∀ (o : Nat → PollOutcome) (u : String),
      (∀ i, i < 45 → isLive (o i) = false) →
      healthPoll o u =
        (List.flatten (List.replicate 45 [.pollReq (healthUrl u) 2, .sleep 1]),
         false) := by
    intro o u h
    unfold healthPoll
    exact pollAttempts_never o (healthUrl u) 45 0
      (fun k hk => by rw [Nat.zero_add]; exact h k hk)
  refine ⟨hnever, ?_, ?_⟩
  · intro o u j hj hlive hbefore
    unfold healthPoll
    exact pollAttempts_firstLive o (healthUrl u) j 45 0 hj
      (by rwa [Nat.zero_add]) (fun k hk => by rw [Nat.zero_add]; exact hbefore k hk)
  · intro env hk hj hu hs hl hp hn
    have hpoll := hnever env.pollOutcome env.previewUrl hn
    have hrun := run_good env hk hj hu hs hl hp
    constructor
    · rw [hrun]
    · rw [hrun, hpoll]
      simp

/-- Witness for C2 at an endpoint whose transport always fails. -/
theorem claim_C2_witness :
    healthPoll (fun _ => PollOutcome.transportError) "https://p.example/" =
      (List.flatten (List.replicate 45
        [Event.pollReq (healthUrl "https://p.example/") 2, Event.sleep 1]),
       false) :=
  claim_C2.1 (fun _ => PollOutcome.transportError) "https://p.example/"
    (fun _ _ => rfl)

/-- C3: for every run that returns normally, the url component is None
precisely when the search found no listings or the sandbox credential was
missing, and a missing DAYTONA_API_KEY makes the workflow return early
without creating any sandbox. -/
theorem claim_C3 (env : Env) :
    (∀ r, (runJobSearchSandbox env).2 = .ok r →
      (resultUrl r = none ↔
        (keyFalsy env.daytonaApiKey = true ∨ env.searchResult = []))) ∧
    (keyFalsy env.daytonaApiKey = true →
      runJobSearchSandbox env = ([], .ok .noKey) ∧
      Event.createSandbox ∉ (runJobSearchSandbox env).1) := by
  cases hk : keyFalsy env.daytonaApiKey with
  | true =>
    have hrun : runJobSearchSandbox env = ([], .ok .noKey) := by
      simp [runJobSearchSandbox, hk]
    constructor
    · intro r hr
      rw [hrun] at hr
      simp only [Except.ok.injEq] at hr
      subst hr
      simp [resultUrl]
    · intro _
      exact ⟨hrun, by rw [hrun]; simp⟩
  | false =>
    refine ⟨?_, fun h => by simp [hk] at h⟩
    intro r hr
    cases hj : env.searchResult.isEmpty with
    | true =>
      have hrun : (runJobSearchSandbox env).2 = .ok .noJobs := by
        simp [runJobSearchSandbox, hk, hj]
      rw [hrun] at hr
      simp only [Except.ok.injEq] at hr
      subst hr
      simp [resultUrl, List.isEmpty_iff.mp hj]
    | false =>
      have hne : ¬ env.searchResult = [] := by
        intro he; rw [he] at hj; simp at hj
      cases hu : env.uploadOk with
      | false =>
        have : (runJobSearchSandbox env).2 = .error .uploadError := by
          simp [runJobSearchSandbox, hk, hj, hu]
        rw [this] at hr; simp at hr
      | true =>
      cases hs : env.createSessionOk with
      | false =>
        have : (runJobSearchSandbox env).2 = .error .sessionError := by
          simp [runJobSearchSandbox, hk, hj, hu, hs]
        rw [this] at hr; simp at hr
      | true =>
      cases hl : env.launchOk with
      | false =>
        have : (runJobSearchSandbox env).2 = .error .launchError := by
          simp [runJobSearchSandbox, hk, hj, hu, hs, hl]
        rw [this] at hr; simp at hr
      | true =>
      cases hp : env.previewOk with
      | false =>
        have : (runJobSearchSandbox env).2 = .error .previewError := by
          simp [runJobSearchSandbox, hk, hj, hu, hs, hl, hp]
        rw [this] at hr; simp at hr
      | true =>
        have hrun : (runJobSearchSandbox env).2 =
            .ok (.ok env.sandboxId env.previewUrl) := by
          rw [run_good env hk hj hu hs hl hp]
        rw [hrun] at hr
        simp only [Except.ok.injEq] at hr
        subst hr
        simp [resultUrl, hne]

/-- Witness for C3 at an environment with no sandbox credential. -/
theorem claim_C3_witness :
    (resultUrl ProvisionResult.noKey = none ↔
      (keyFalsy envNoApiKey.daytonaApiKey = true ∨
       envNoApiKey.searchResult = [])) ∧
    runJobSearchSandbox envNoApiKey = ([], .ok .noKey) := by
  have h := claim_C3 envNoApiKey
  exact ⟨h.1 .noKey rfl, (h.2 rfl).1⟩

/-- C8: a message whose concatenated text, after trimming, is shorter than 3
characters gets the fixed usage-hint reply and dispatches neither the
provisioner nor the listing client. -/
theorem claim_C8 (parts : List ContentPart) (env : Env) (resp : HttpOutcome)
    (h : (pyStrip (extractText parts)).length < 3) :
    handleMessage parts env resp =
      { reply := .usageHint, invokedProvisioner := false,
        invokedListingClient := false } := by
  simp [handleMessage, h]

/-- Witness for C8 at a two-character message. -/
theorem claim_C8_witness :
    handleMessage [ContentPart.textPart "  hi  ", ContentPart.otherPart]
        envGood HttpOutcome.transportError =
      { reply := .usageHint, invokedProvisioner := false,
        invokedListingClient := false } :=
  claim_C8 _ _ _ (by decide)

/-- C9: the dependency-install step attempts the four commands in their fixed
order inside the session, stops at the first success, and no install outcome
ever aborts the workflow before the launch step. -/
theorem claim_C9 (env : Env)
    (hkey : keyFalsy env.daytonaApiKey = false)
    (hjobs : env.searchResult.isEmpty = false)
    (hu : env.uploadOk = true) (hs : env.createSessionOk = true) :
    (∃ rest, (runJobSearchSandbox env).1 =
      [.createSandbox, .searchCall, .uploadFile, .createSession]
        ++ (installSeq env.installOk [0, 1, 2, 3]).map .installCmd
        ++ [.diagLs, .diagPython, .launch] ++ rest) ∧
    (env.installOk 0 = true → installSeq env.installOk [0, 1, 2, 3] = [0]) ∧
    (env.installOk 0 = false → env.installOk 1 = true →
      installSeq env.installOk [0, 1, 2, 3] = [0, 1]) ∧
    (env.installOk 0 = false → env.installOk 1 = false → env.installOk 2 = true →
      installSeq env.installOk [0, 1, 2, 3] = [0, 1, 2]) ∧
    (env.installOk 0 = false → env.installOk 1 = false → env.installOk 2 = false →
      installSeq env.installOk [0, 1, 2, 3] = [0, 1, 2, 3]) ∧
    Event.launch ∈ (runJobSearchSandbox env).1 := by
  refine ⟨run_trace_reaches_launch env hkey hjobs hu hs, ?_, ?_, ?_, ?_, ?_⟩
  · intro h0; simp [installSeq, h0]
  · intro h0 h1; simp [installSeq, h0, h1]
  · intro h0 h1 h2; simp [installSeq, h0, h1, h2]
  · intro h0 h1 h2
    cases h3 : env.installOk 3 <;> simp [installSeq, h0, h1, h2, h3]
  · obtain ⟨rest, hr⟩ := run_trace_reaches_launch env hkey hjobs hu hs
    rw [hr]; simp

/-- Witness for C9 at an environment in which every install command fails:
all four are attempted and the launch step is still reached. -/
theorem claim_C9_witness :
    installSeq envGood.installOk [0, 1, 2, 3] = [0, 1, 2, 3] ∧
    Event.launch ∈ (runJobSearchSandbox envGood).1 := by
  have h := claim_C9 envGood rfl rfl rfl rfl
  exact ⟨h.2.2.2.2.1 rfl rfl rfl, h.2.2.2.2.2⟩

end DaytonaFetchai
